import Mathlib

/-!
Shallow embedding of the `friuns/proxy-tools` repository
(`src/proxy_checker.py` and `src/proxy_finder.py`).

The network is modelled as an explicit input: each probe receives the
`HttpResult` that the HTTP client (`requests.get`) produced for it, and each
run receives a function from candidate strings to such results.  Wall-clock
latency is carried as a rational number standing in for the Python float;
claims never inspect its numeric value.  Python dictionaries returned by the
probe functions are modelled as a record with `Option` fields: a `none` field
corresponds to the key being absent from the dictionary.
-/

namespace ProxyTools

/-- The parse behaviour of a 200 response body, as seen by the Python code:
`invalid` — `response.json()` raises (body is not JSON), carrying the
exception message; `nonDict` — the body parses to a non-dict JSON value, so
`data.get('origin', 'unknown')` raises `AttributeError`, carrying that
message; `dict origin` — the body is a JSON object, with `origin` the value
of its `"origin"` key when present. -/
inductive Body where
  | invalid (msg : String)
  | nonDict (msg : String)
  | dict (origin : Option String)
deriving DecidableEq, Repr

/-- Result of one `requests.get` call through a proxy: either a response
with a status code, a body and an elapsed wall-clock duration, or an
exception.  `requestException` models `requests.exceptions.RequestException`
(connection error, timeout, DNS failure, and — in current `requests` —
`JSONDecodeError`); `otherException` models any other `Exception`. -/
inductive HttpResult where
  | response (status_code : Nat) (body : Body) (elapsed : ℚ)
  | requestException (msg : String)
  | otherException (msg : String)
deriving DecidableEq, Repr

/-- The per-candidate outcome dictionary built by both probe functions.
A `none` value models the key being absent from the Python dict. -/
structure Outcome where
  proxy : String
  status : String
  response_time : Option ℚ := none
  real_ip : Option String := none
  error : Option String := none
  protocol : Option String := none
deriving DecidableEq, Repr

namespace ProxyChecker

/-- `check_proxy` of `src/proxy_checker.py` (lines 13–58).  The whole body —
request, `response.json()`, `data.get` — sits in one `try`.  A 200 response
whose body parses to a dict yields status `working` with `response_time` and
`real_ip = data.get('origin', 'unknown')`; a non-200 response yields
`failed` with error `HTTP <code>`; any exception — transport error, JSON
parse failure (a `RequestException` in current `requests`), or the
`AttributeError` from `.get` on a non-dict — yields `failed`, with the
generic handler prefixing `Unexpected error: `. -/
def check_proxy (proxy : String) (resp : HttpResult) : Outcome :=
  match resp with
  | .response code body elapsed =>
    if code = 200 then
      match body with
      | .dict origin =>
        { proxy := proxy, status := "working", response_time := some elapsed,
          real_ip := some (origin.getD "unknown") }
      | .invalid msg =>
        { proxy := proxy, status := "failed", error := some msg }
      | .nonDict msg =>
        { proxy := proxy, status := "failed",
          error := some ("Unexpected error: " ++ msg) }
    else
      { proxy := proxy, status := "failed",
        error := some ("HTTP " ++ toString code) }
  | .requestException msg =>
    { proxy := proxy, status := "failed", error := some msg }
  | .otherException msg =>
    { proxy := proxy, status := "failed",
      error := some ("Unexpected error: " ++ msg) }

/-- The list comprehension of `check_proxies_from_file` (line 66):
`[line.strip() for line in f if line.strip() and not line.startswith('#')]`.
The emptiness test is on the stripped line while the `#` test is on the raw
line, exactly as in the source. -/
def load_proxies (lines : List String) : List String :=
  (lines.filter fun line => line.trim != "" && !(line.startsWith "#")).map
    (fun line => line.trim)

/-- `check_proxies_from_file` (lines 60–91).  The file is `none` when
opening raises `FileNotFoundError`, in which case the error is printed and
`[]` is returned.  Otherwise every loaded proxy is submitted to the executor
(duplicates included, since each `executor.submit` call creates a distinct
future key) and the results are appended one by one as the futures complete;
the completion order is modelled as submission order, which is one of the
possible interleavings, and the claims proved below are order-insensitive.
`max_workers` bounds concurrency only, so it does not affect the value. -/
def check_proxies_from_file (file : Option (List String)) (max_workers : Nat)
    (net : String → HttpResult) : List Outcome :=
  match file with
  | none => []
  | some lines =>
    let proxies := load_proxies lines
    let completed := proxies.map fun p => check_proxy p (net p)
    completed.foldl (fun results r => results ++ [r]) []

/-- Observable effects of one run of the file-check tool's `main`. -/
structure RunResult where
  exit_code : Nat
  error_reported : Bool
  output_file : Option (List Outcome)
deriving DecidableEq, Repr

/-- `main` of `src/proxy_checker.py` (lines 93–107): with the wrong argument
count it prints usage and exits 1 without writing anything; otherwise it
runs `check_proxies_from_file` (reporting the error when the file is
missing) and then unconditionally writes the results list — possibly empty —
to `<basename>_results.json`, exiting normally. -/
def main (argc : Nat) (file : Option (List String))
    (net : String → HttpResult) : RunResult :=
  if argc ≠ 2 then
    { exit_code := 1, error_reported := false, output_file := none }
  else
    let results := check_proxies_from_file file 10 net
    { exit_code := 0, error_reported := file.isNone,
      output_file := some results }

end ProxyChecker

namespace ProxyFinder

/-- `round(x, 2)` applied to the measured response time (line 110),
modelled with Mathlib's `round` on rationals. -/
def round2 (q : ℚ) : ℚ := (round (q * 100) : ℤ) / 100

/-- `ProxyFinder.check_proxy` of `src/proxy_finder.py` (lines 86–133).
Unlike the file-check tool, the `response.json()` / `data.get` pair sits in
an inner `try` whose bare `except` downgrades any parse failure to a
`working` outcome without `real_ip`; the outer handler catches every other
exception as `failed` with `str(e)`. -/
def check_proxy (proxy : String) (resp : HttpResult) : Outcome :=
  match resp with
  | .response code body elapsed =>
    if code = 200 then
      match body with
      | .dict origin =>
        { proxy := proxy, status := "working",
          response_time := some (round2 elapsed),
          real_ip := some (origin.getD "unknown"), protocol := some "http" }
      | .invalid _ =>
        { proxy := proxy, status := "working",
          response_time := some (round2 elapsed), protocol := some "http" }
      | .nonDict _ =>
        { proxy := proxy, status := "working",
          response_time := some (round2 elapsed), protocol := some "http" }
    else
      { proxy := proxy, status := "failed",
        error := some ("HTTP " ++ toString code) }
  | .requestException msg =>
    { proxy := proxy, status := "failed", error := some msg }
  | .otherException msg =>
    { proxy := proxy, status := "failed", error := some msg }

/-- The hard-coded fallback list of lines 160–165. -/
def test_proxies : List String :=
  ["8.8.8.8:80", "1.1.1.1:80", "208.67.222.222:80", "208.67.220.220:80"]

/-- The source-collection loop of `find_working_proxies` (lines 140–151):
each source's fetched list arrives (in some completion order, modelled as
list order), and when non-empty its first `max_proxies_per_source` entries
are appended to `all_proxies`. -/
def collect_proxies (source_results : List (List String))
    (max_proxies_per_source : Nat) : List String :=
  source_results.foldl
    (fun all_proxies proxies =>
      if proxies.isEmpty then all_proxies
      else all_proxies ++ proxies.take max_proxies_per_source)
    []

/-- `all_proxies = list(set(all_proxies))` (line 154).  Python set iteration
order is unspecified; it is modelled as first-occurrence order, and the
claims about it concern only membership and multiplicity. -/
def remove_duplicates (l : List String) : List String := l.dedup

/-- Lines 153–166 of `find_working_proxies`: deduplicate the collected pool
and, when it is empty, extend it with the hard-coded `test_proxies`.  The
result is the candidate list handed to the probing executor. -/
def candidate_pool (source_results : List (List String))
    (max_proxies_per_source : Nat) : List String :=
  let all_proxies :=
    remove_duplicates (collect_proxies source_results max_proxies_per_source)
  if all_proxies.isEmpty then all_proxies ++ test_proxies else all_proxies

/-- The probing fan-out of lines 171–183: one `check_proxy` call per entry
of the candidate pool (completion order modelled as submission order). -/
def run_checks (proxies : List String) (net : String → HttpResult) :
    List Outcome :=
  proxies.map fun p => check_proxy p (net p)

/-- `find_working_proxies` (lines 135–186): build the candidate pool, probe
every candidate, and accumulate — via `working_proxies.append(result)` —
only the outcomes whose status is `working`; failed outcomes are printed and
dropped.  The returned list is exactly what `main` serializes to
`working_proxies.json`. -/
def find_working_proxies (source_results : List (List String))
    (max_proxies_per_source : Nat) (max_workers : Nat)
    (net : String → HttpResult) : List Outcome :=
  let all_proxies := candidate_pool source_results max_proxies_per_source
  (run_checks all_proxies net).foldl
    (fun working_proxies r =>
      if r.status == "working" then working_proxies ++ [r]
      else working_proxies)
    []

end ProxyFinder

/-- The invariant claimed of every outcome record: closed status enum,
latency present exactly on success, error detail present exactly on failure,
never both. -/
def outcome_invariant (o : Outcome) : Prop :=
  (o.status = "working" ∨ o.status = "failed")
    ∧ (o.response_time.isSome ↔ o.status = "working")
    ∧ (o.error.isSome ↔ o.status = "failed")
    ∧ ¬(o.response_time.isSome ∧ o.error.isSome)

instance (o : Outcome) : Decidable (outcome_invariant o) := by
  unfold outcome_invariant; infer_instance

end ProxyTools

open ProxyTools

lemma foldl_append_singleton (l acc : List Outcome) :
    l.foldl (fun results r => results ++ [r]) acc = acc ++ l := by
  induction l generalizing acc with
  | nil => simp
  | cons x xs ih => simp [List.foldl_cons, ih, List.append_assoc]

lemma foldl_filter_bool (p : Outcome → Bool) (l acc : List Outcome) :
    l.foldl (fun working r => if p r then working ++ [r] else working) acc
      = acc ++ l.filter p := by
  induction l generalizing acc with
  | nil => simp
  | cons x xs ih =>
    rw [List.foldl_cons, ih, List.filter_cons]
    by_cases h : p x = true
    · rw [if_pos h, if_pos h, List.append_assoc, List.singleton_append]
    · rw [if_neg h, if_neg h]

lemma checker_check_proxy_proxy (p : String) (resp : HttpResult) :
    (ProxyChecker.check_proxy p resp).proxy = p := by
  rcases resp with ⟨code, body, elapsed⟩ | msg | msg
  · by_cases h : code = 200 <;> rcases body with msg | msg | origin <;>
      simp [ProxyChecker.check_proxy, h]
  · rfl
  · rfl

lemma finder_check_proxy_proxy (p : String) (resp : HttpResult) :
    (ProxyFinder.check_proxy p resp).proxy = p := by
  rcases resp with ⟨code, body, elapsed⟩ | msg | msg
  · by_cases h : code = 200 <;> rcases body with msg | msg | origin <;>
      simp [ProxyFinder.check_proxy, h]
  · rfl
  · rfl

/-- C1 (counterexample): the claim asserts that a 200 response whose body
fails to parse as JSON still yields status `working` in the probe function
of BOTH tools.  In `proxy_checker.py` the `response.json()` call sits inside
the same `try` as the request, so the parse failure is caught by the
exception handlers and the outcome is `failed`, not `working`. -/
theorem claim_C1_counterexample :
    (ProxyChecker.check_proxy "1.2.3.4:8080"
        (.response 200 (.invalid "Expecting value: line 1 column 1 (char 0)") 1)).status
      ≠ "working" := by decide

/-- C1 (amended): a 200 response with an unparseable JSON body yields
`working` with `real_ip` absent in the aggregation tool's probe
(`proxy_finder.py`, inner `try`/`except` around `response.json()`), but in
the file-check tool's probe (`proxy_checker.py`) the same situation yields
status `failed` with the parse exception's message as the error detail. -/
theorem claim_C1_parse_failure_downgraded_only_in_finder
    (proxy msg : String) (elapsed : ℚ) :
    (ProxyFinder.check_proxy proxy (.response 200 (.invalid msg) elapsed)).status
        = "working"
      ∧ (ProxyFinder.check_proxy proxy (.response 200 (.invalid msg) elapsed)).real_ip
        = none
      ∧ (ProxyChecker.check_proxy proxy (.response 200 (.invalid msg) elapsed)).status
        = "failed"
      ∧ (ProxyChecker.check_proxy proxy (.response 200 (.invalid msg) elapsed)).error
        = some msg :=
  ⟨rfl, rfl, rfl, rfl⟩

/-- C2 (counterexample): the claim asserts `real_ip` is absent when the 200
body lacks an origin field.  Both probe functions use
`data.get('origin', 'unknown')`, so on a JSON object without `"origin"` the
outcome carries `real_ip = "unknown"` — present, not absent. -/
theorem claim_C2_counterexample :
    (ProxyChecker.check_proxy "1.2.3.4:8080"
          (.response 200 (.dict none) 1)).real_ip = some "unknown"
      ∧ (ProxyChecker.check_proxy "1.2.3.4:8080"
          (.response 200 (.dict none) 1)).status = "working"
      ∧ (ProxyFinder.check_proxy "1.2.3.4:8080"
          (.response 200 (.dict none) 1)).real_ip = some "unknown" := by
  refine ⟨rfl, rfl, rfl⟩

/-- C2 (amended): `real_ip` is present only when status is `working` (for
the file-check tool's probe, presence is exactly equivalent to `working`);
but when the 200 body parses to a JSON object lacking the origin field,
`real_ip` is still present, with the placeholder value `"unknown"`, in both
tools. -/
theorem claim_C2_real_ip_presence (proxy : String) (resp : HttpResult) :
    ((ProxyChecker.check_proxy proxy resp).real_ip.isSome
        ↔ (ProxyChecker.check_proxy proxy resp).status = "working")
      ∧ ((ProxyFinder.check_proxy proxy resp).real_ip.isSome
        → (ProxyFinder.check_proxy proxy resp).status = "working")
      ∧ (∀ elapsed : ℚ,
          (ProxyChecker.check_proxy proxy
              (.response 200 (.dict none) elapsed)).real_ip = some "unknown"
            ∧ (ProxyFinder.check_proxy proxy
              (.response 200 (.dict none) elapsed)).real_ip = some "unknown") := by
  refine ⟨?_, ?_, fun elapsed => ⟨rfl, rfl⟩⟩ <;>
    · rcases resp with ⟨code, body, elapsed⟩ | msg | msg
      · by_cases h : code = 200 <;> rcases body with msg | msg | origin <;>
          simp [ProxyChecker.check_proxy, ProxyFinder.check_proxy, h]
      · simp [ProxyChecker.check_proxy, ProxyFinder.check_proxy]
      · simp [ProxyChecker.check_proxy, ProxyFinder.check_proxy]

theorem claim_C2_witness :
    (ProxyFinder.check_proxy "8.8.8.8:80"
        (.response 200 (.dict (some "1.2.3.4")) 1)).status = "working" :=
  (claim_C2_real_ip_presence "8.8.8.8:80"
    (.response 200 (.dict (some "1.2.3.4")) 1)).2.1 (by decide)

/-- C3 (confirmed): every outcome of either probe function has status
exactly `working` or `failed`, carries `response_time` iff `working`,
carries `error` iff `failed`, and never both at once. -/
theorem claim_C3_outcome_invariant (proxy : String) (resp : HttpResult) :
    outcome_invariant (ProxyChecker.check_proxy proxy resp)
      ∧ outcome_invariant (ProxyFinder.check_proxy proxy resp) := by
  constructor <;>
    · rcases resp with ⟨code, body, elapsed⟩ | msg | msg
      · by_cases h : code = 200 <;> rcases body with msg | msg | origin <;>
          simp [outcome_invariant, ProxyChecker.check_proxy,
            ProxyFinder.check_proxy, h]
      · simp [outcome_invariant, ProxyChecker.check_proxy,
          ProxyFinder.check_proxy]
      · simp [outcome_invariant, ProxyChecker.check_proxy,
          ProxyFinder.check_proxy]

theorem claim_C3_witness :
    outcome_invariant
      (ProxyChecker.check_proxy "8.8.8.8:80"
        (.requestException "Connection timed out")) :=
  (claim_C3_outcome_invariant "8.8.8.8:80"
    (.requestException "Connection timed out")).1

lemma ProxyChecker.check_proxies_from_file_eq_map (lines : List String)
    (w : Nat) (net : String → HttpResult) :
    ProxyChecker.check_proxies_from_file (some lines) w net
      = (ProxyChecker.load_proxies lines).map
          (fun p => ProxyChecker.check_proxy p (net p)) := by
  simp [ProxyChecker.check_proxies_from_file, foldl_append_singleton]

/-- C4 (confirmed): for any input file contents (hence any candidate list
size N, including 0) and any worker cap, the file-check run produces exactly
one outcome per loaded candidate — the candidate multiset of the results
equals the loaded list, duplicates included — and an empty candidate list
yields an empty result. -/
theorem claim_C4_one_outcome_per_candidate (lines : List String) (w : Nat)
    (net : String → HttpResult) :
    (ProxyChecker.check_proxies_from_file (some lines) w net).length
        = (ProxyChecker.load_proxies lines).length
      ∧ (((ProxyChecker.check_proxies_from_file (some lines) w net).map
            Outcome.proxy : List String) : Multiset String)
        = ((ProxyChecker.load_proxies lines : List String) : Multiset String)
      ∧ (ProxyChecker.load_proxies lines = []
          → ProxyChecker.check_proxies_from_file (some lines) w net = []) := by
  have hmap : (ProxyChecker.check_proxies_from_file (some lines) w net).map
      Outcome.proxy = ProxyChecker.load_proxies lines := by
    rw [ProxyChecker.check_proxies_from_file_eq_map, List.map_map]
    have hcomp : (Outcome.proxy ∘ fun p => ProxyChecker.check_proxy p (net p))
        = id := funext fun p => checker_check_proxy_proxy p (net p)
    rw [hcomp, List.map_id]
  refine ⟨?_, ?_, ?_⟩
  · have := congrArg List.length hmap
    simpa [List.length_map] using this
  · rw [hmap]
  · intro h
    rw [ProxyChecker.check_proxies_from_file_eq_map, h]
    rfl

theorem claim_C4_witness :
    ProxyChecker.check_proxies_from_file (some []) 10
        (fun _ => .requestException "timed out") = [] :=
  (claim_C4_one_outcome_per_candidate [] 10
      (fun _ => .requestException "timed out")).2.2 rfl

/-- C5 (confirmed): an HTTP response with any status code other than 200
yields, in both tools' probe functions, status `failed` with error detail
`"HTTP "` followed by the decimal status code; instantiated at 403 by the
witness, the error detail is `"HTTP 403"`. -/
theorem claim_C5_non_200_failed (proxy : String) (code : Nat) (body : Body)
    (elapsed : ℚ) (h : code ≠ 200) :
    (ProxyChecker.check_proxy proxy (.response code body elapsed)).status
        = "failed"
      ∧ (ProxyChecker.check_proxy proxy (.response code body elapsed)).error
        = some ("HTTP " ++ toString code)
      ∧ (ProxyFinder.check_proxy proxy (.response code body elapsed)).status
        = "failed"
      ∧ (ProxyFinder.check_proxy proxy (.response code body elapsed)).error
        = some ("HTTP " ++ toString code) := by
  simp [ProxyChecker.check_proxy, ProxyFinder.check_proxy, h]

theorem claim_C5_witness :
    (403 : Nat) ≠ 200
      ∧ (ProxyChecker.check_proxy "8.8.8.8:80"
          (.response 403 (.dict none) 1)).error = some "HTTP 403"
      ∧ (ProxyFinder.check_proxy "8.8.8.8:80"
          (.response 403 (.dict none) 1)).status = "failed" := by
  refine ⟨by decide, ?_, ?_⟩
  · exact (claim_C5_non_200_failed "8.8.8.8:80" 403 (.dict none) 1
      (by decide)).2.1
  · exact (claim_C5_non_200_failed "8.8.8.8:80" 403 (.dict none) 1
      (by decide)).2.2.1

lemma candidate_pool_eq_dedup (source_results : List (List String))
    (maxp : Nat)
    (h : ProxyFinder.collect_proxies source_results maxp ≠ []) :
    ProxyFinder.candidate_pool source_results maxp
      = ProxyFinder.remove_duplicates
          (ProxyFinder.collect_proxies source_results maxp) := by
  have hd : ProxyFinder.remove_duplicates
      (ProxyFinder.collect_proxies source_results maxp) ≠ [] := by
    simpa only [ProxyFinder.remove_duplicates, ne_eq,
      List.dedup_eq_nil] using h
  simp [ProxyFinder.candidate_pool, hd]

/-- C6 (confirmed): after collecting candidates from all sources, the
deduplicated pool contains each distinct candidate string exactly once (and
strings not collected zero times); moreover whenever the collected pool is
non-empty, that deduplicated pool is exactly the candidate list fed to the
probing runner. -/
theorem claim_C6_deduplicated_pool (source_results : List (List String))
    (maxp : Nat) (x : String) :
    ((ProxyFinder.remove_duplicates
          (ProxyFinder.collect_proxies source_results maxp)).count x
        = if x ∈ ProxyFinder.collect_proxies source_results maxp then 1 else 0)
      ∧ (ProxyFinder.collect_proxies source_results maxp ≠ []
          → ProxyFinder.candidate_pool source_results maxp
            = ProxyFinder.remove_duplicates
                (ProxyFinder.collect_proxies source_results maxp)) :=
  ⟨List.count_dedup _ _, candidate_pool_eq_dedup source_results maxp⟩

theorem claim_C6_witness :
    (ProxyFinder.remove_duplicates
          (ProxyFinder.collect_proxies
            [["1.1.1.1:80", "1.1.1.1:80"], ["1.1.1.1:80"]] 50)).count
        "1.1.1.1:80" = 1
      ∧ ProxyFinder.candidate_pool
          [["1.1.1.1:80", "1.1.1.1:80"], ["1.1.1.1:80"]] 50
        = ProxyFinder.remove_duplicates
            (ProxyFinder.collect_proxies
              [["1.1.1.1:80", "1.1.1.1:80"], ["1.1.1.1:80"]] 50) := by
  have h := claim_C6_deduplicated_pool
    [["1.1.1.1:80", "1.1.1.1:80"], ["1.1.1.1:80"]] 50 "1.1.1.1:80"
  refine ⟨?_, h.2 (by decide)⟩
  rw [h.1, if_pos (by decide)]

/-- C7 (counterexample): the claim asserts that with a missing input file
the run aborts as a fatal error and produces no output file.  In the code,
`check_proxies_from_file` catches `FileNotFoundError`, prints the error and
returns `[]`, and `main` then continues: it writes the empty results list to
the `_results.json` output file and exits normally with code 0. -/
theorem claim_C7_counterexample :
    (ProxyChecker.main 2 none (fun _ => .requestException "timed out")).exit_code
        = 0
      ∧ (ProxyChecker.main 2 none
          (fun _ => .requestException "timed out")).output_file = some [] :=
  ⟨rfl, rfl⟩

/-- C7 (amended): with a missing input file the error is reported, no probe
is performed and the result collection is empty — but the run is not fatal:
`main` continues, writes an empty JSON array to the output file, and exits
with code 0. -/
theorem claim_C7_missing_input_reported_but_run_continues (w : Nat)
    (net : String → HttpResult) :
    ProxyChecker.check_proxies_from_file none w net = []
      ∧ (ProxyChecker.main 2 none net).error_reported = true
      ∧ (ProxyChecker.main 2 none net).exit_code = 0
      ∧ (ProxyChecker.main 2 none net).output_file = some [] :=
  ⟨rfl, rfl, rfl, rfl⟩

/-- C8 (counterexample): the claim asserts both tools serialize every
produced outcome, failed ones included.  With one candidate whose probe
fails, the aggregation tool produces one outcome but
`find_working_proxies` — whose return value is exactly what `main` writes to
`working_proxies.json` — returns the empty list, dropping the failed
outcome. -/
theorem claim_C8_counterexample :
    (ProxyFinder.run_checks
          (ProxyFinder.candidate_pool [["1.2.3.4:80"]] 50)
          (fun _ => .requestException "timed out")).length = 1
      ∧ ProxyFinder.find_working_proxies [["1.2.3.4:80"]] 50 20
          (fun _ => .requestException "timed out") = [] := by
  constructor
  · rfl
  · rfl

/-- C8 (amended): the file-check tool serializes the full outcome
collection in arrival order — its output file holds one outcome per loaded
candidate, failed ones included; the aggregation tool serializes only the
outcomes whose status is `working`, in arrival order, discarding failed
outcomes. -/
theorem claim_C8_serialized_collections (lines : List String)
    (net : String → HttpResult) (source_results : List (List String))
    (maxp mw : Nat) :
    (ProxyChecker.main 2 (some lines) net).output_file
        = some ((ProxyChecker.load_proxies lines).map
            (fun p => ProxyChecker.check_proxy p (net p)))
      ∧ ProxyFinder.find_working_proxies source_results maxp mw net
        = (ProxyFinder.run_checks
              (ProxyFinder.candidate_pool source_results maxp) net).filter
            (fun r => r.status == "working") := by
  constructor
  · show some (ProxyChecker.check_proxies_from_file (some lines) 10 net) = _
    rw [ProxyChecker.check_proxies_from_file_eq_map]
  · exact (foldl_filter_bool (fun r => r.status == "working")
        (ProxyFinder.run_checks
          (ProxyFinder.candidate_pool source_results maxp) net) []).trans
      (List.nil_append _)

lemma foldl_collect_of_all_empty (maxp : Nat) (l : List (List String))
    (h : ∀ r ∈ l, r = []) (acc : List String) :
    l.foldl
        (fun all_proxies proxies =>
          if proxies.isEmpty then all_proxies
          else all_proxies ++ proxies.take maxp) acc = acc := by
  induction l generalizing acc with
  | nil => rfl
  | cons x xs ih =>
    have hx : x = [] := h x (List.mem_cons_self _ _)
    subst hx
    rw [List.foldl_cons]
    exact ih (fun r hr => h r (List.mem_cons_of_mem _ hr)) acc

/-- C9 (confirmed): when every source contributes zero candidates, the
aggregation tool does not probe an empty pool — the candidate list handed to
the probing runner is exactly the hard-coded four-entry fallback list, and
the runner therefore performs exactly four probes. -/
theorem claim_C9_empty_sources_fallback (source_results : List (List String))
    (maxp : Nat) (net : String → HttpResult)
    (h : ∀ r ∈ source_results, r = []) :
    ProxyFinder.candidate_pool source_results maxp
        = ["8.8.8.8:80", "1.1.1.1:80", "208.67.222.222:80", "208.67.220.220:80"]
      ∧ (ProxyFinder.run_checks
          (ProxyFinder.candidate_pool source_results maxp) net).length = 4 := by
  have hc : ProxyFinder.collect_proxies source_results maxp = [] :=
    foldl_collect_of_all_empty maxp source_results h []
  have hp : ProxyFinder.candidate_pool source_results maxp
      = ProxyFinder.test_proxies := by
    unfold ProxyFinder.candidate_pool ProxyFinder.remove_duplicates
    rw [hc]
    rfl
  refine ⟨hp.trans rfl, ?_⟩
  rw [hp]
  rfl

theorem claim_C9_witness :
    ProxyFinder.candidate_pool [[], [], [], []] 50
      = ["8.8.8.8:80", "1.1.1.1:80", "208.67.222.222:80", "208.67.220.220:80"] :=
  (claim_C9_empty_sources_fallback [[], [], [], []] 50
    (fun _ => .requestException "timed out") (by decide)).1

lemma mem_foldl_collect (maxp : Nat) (x : String) :
    ∀ (l : List (List String)) (acc : List String),
      (x ∈ l.foldl
          (fun all_proxies proxies =>
            if proxies.isEmpty then all_proxies
            else all_proxies ++ proxies.take maxp) acc)
        ↔ x ∈ acc ∨ ∃ ps ∈ l, x ∈ ps.take maxp := by
  intro l
  induction l with
  | nil => intro acc; simp
  | cons y ys ih =>
    intro acc
    rw [List.foldl_cons, ih]
    by_cases hy : y.isEmpty = true
    · have hynil : y = [] := by
        cases y with
        | nil => rfl
        | cons a as => simp at hy
      subst hynil
      rw [if_pos hy]
      simp
    · rw [if_neg hy]
      simp [List.mem_append, or_assoc]

/-- C10 (confirmed): a candidate string reaches the combined pool exactly
when it occurs among the first `max_proxies_per_source` entries (the Python
default is 50) of some source's fetched list — the truncation is applied per
source before deduplication, so entries past that prefix are discarded even
when unique; and the same characterization carries over to the candidate
list fed to the probing runner whenever the pool is non-empty. -/
theorem claim_C10_per_source_truncation (source_results : List (List String))
    (maxp : Nat) (x : String) :
    (x ∈ ProxyFinder.collect_proxies source_results maxp
        ↔ ∃ ps ∈ source_results, x ∈ ps.take maxp)
      ∧ (ProxyFinder.collect_proxies source_results maxp ≠ []
          → (x ∈ ProxyFinder.candidate_pool source_results maxp
              ↔ ∃ ps ∈ source_results, x ∈ ps.take maxp)) := by
  have hmem : x ∈ ProxyFinder.collect_proxies source_results maxp
      ↔ ∃ ps ∈ source_results, x ∈ ps.take maxp := by
    have h := mem_foldl_collect maxp x source_results []
    simpa [ProxyFinder.collect_proxies] using h
  refine ⟨hmem, fun hne => ?_⟩
  rw [candidate_pool_eq_dedup source_results maxp hne]
  simp only [ProxyFinder.remove_duplicates, List.mem_dedup]
  exact hmem

theorem claim_C10_witness :
    "b:2" ∉ ProxyFinder.candidate_pool [["a:1", "b:2"]] 1 := fun hx =>
  absurd (((claim_C10_per_source_truncation [["a:1", "b:2"]] 1 "b:2").2
      (by decide)).mp hx) (by decide)
